import Mathlib

/-!
Shallow embedding of the data-access layer of the rsud-dolopo hospital
registration application (the `api` object and its fallback helpers).

Modelling conventions:
* JavaScript/JSON values are modelled by the inductive type `JVal`
  (numbers as `Int`: every numeric value manipulated by the code is an
  integer — ids, costs, bed counts, timestamps).
* `localStorage` is modelled as an association list from keys to cells.
  `JSON.stringify`/`JSON.parse` are browser primitives, not repository
  code; they are modelled by the invariant that a string written by
  `JSON.stringify(v)` is non-empty and parses back to `v` (constructor
  `Cell.good v`), while a pre-existing entry that is empty or fails to
  parse is `Cell.bad`.  `localStorage.setItem` is modelled as always
  succeeding (quota failures are environment conditions outside the
  embedded state).
* `Math.random()` is modelled as a rational `q` with `0 ≤ q < 1`.
* Asynchronous remote (Supabase) calls are modelled by their outcome:
  either the `{ data, error }` object they resolve to, or a thrown
  exception.  Fallback closures are embedded as store-passing functions.
-/

namespace RsudDolopo

/-- JSON-like JavaScript runtime values. -/
inductive JVal where
  | null : JVal
  | bool : Bool → JVal
  | num : Int → JVal
  | str : String → JVal
  | arr : List JVal → JVal
  | obj : List (String × JVal) → JVal

/-- JavaScript truthiness of a value (`NaN` is not representable here;
`null`, `false`, `0` and `""` are falsy, arrays and objects truthy). -/
def truthy : JVal → Bool
  | .null => false
  | .bool b => b
  | .num n => n != 0
  | .str s => s != ""
  | .arr _ => true
  | .obj _ => true

/-- Truthiness of a possibly-absent value; `none` models `undefined`. -/
def truthyOpt : Option JVal → Bool
  | none => false
  | some v => truthy v

/-- JavaScript `x || d`: the value if truthy, else the default. -/
def jsOr (v : Option JVal) (d : JVal) : JVal :=
  if truthyOpt v then v.getD d else d

/-- Property access `v.k`: field lookup on objects, `undefined` (`none`)
otherwise. -/
def getField : JVal → String → Option JVal
  | .obj fs, k => fs.lookup k
  | _, _ => none

/-- JavaScript strict equality `v === s` against a string literal:
true exactly when `v` is that string. -/
def strictEqStr (v : Option JVal) (s : String) : Bool :=
  match v with
  | some (.str t) => t == s
  | _ => false

/-- JavaScript strict equality `v === n` against a number:
true exactly when `v` is that number. -/
def strictEqNum (v : Option JVal) (n : Int) : Bool :=
  match v with
  | some (.num m) => m == n
  | _ => false

/-- Fields seen when spreading a value into an object literal:
`{...v}` enumerates an object's own fields and nothing for primitives. -/
def asObj : JVal → List (String × JVal)
  | .obj fs => fs
  | _ => []

/-- Elements of a value used as an array; the fallback closures only ever
apply this to values that actually are arrays (see the hypotheses of the
theorems below). -/
def asList : JVal → List JVal
  | .arr xs => xs
  | _ => []

/-- Object spread `{...old, ...new}`: old fields in place, updated when the
update object has the same key, then the update-only keys appended. -/
def objMerge (old new : List (String × JVal)) : List (String × JVal) :=
  (old.map fun p =>
    match new.lookup p.1 with
    | some v => (p.1, v)
    | none => p)
  ++ new.filter fun p => (old.lookup p.1).isNone

/-- One `localStorage` entry: a string that parses back to a value, or an
entry that is empty/corrupt (its `JSON.parse` throws or is skipped). -/
inductive Cell where
  | good : JVal → Cell
  | bad : Cell

/-- The `localStorage` key/value map. -/
abbrev Store := List (String × Cell)

/-- Exact embedding of `getMockData`: return the parsed array stored under
`key`; on a missing key, an empty stored string, or a parse error (the
`try`/`catch` swallows it) return `defaultData`.  The function is total:
no exception escapes. -/
def getMockData (st : Store) (key : String) (defaultData : JVal) : JVal :=
  match st.lookup key with
  | some (.good v) => v
  | _ => defaultData

/-- Exact embedding of `setMockData`: `JSON.stringify` the value and store
it under `key` (the new entry shadows any previous one). -/
def setMockData (st : Store) (key : String) (data : JVal) : Store :=
  (key, .good data) :: st

/-- The `MOCK_DOCTORS` constant (default fallback contents of the
`doctors` collection). -/
def MOCK_DOCTORS : List JVal :=
  [.obj [("id", .num 1), ("name", .str "dr. Andi Wijaya, Sp.PD"),
         ("specialty", .str "Penyakit Dalam"),
         ("image", .str "https://picsum.photos/seed/doc1/200/200"),
         ("schedule", .str "Senin - Kamis, 08.00 - 12.00"),
         ("available", .bool true)],
   .obj [("id", .num 2), ("name", .str "dr. Sarah Utami, Sp.A"),
         ("specialty", .str "Anak"),
         ("image", .str "https://picsum.photos/seed/doc2/200/200"),
         ("schedule", .str "Senin - Jumat, 09.00 - 14.00"),
         ("available", .bool true)]]

/-- Outcome of awaiting a remote Supabase operation: the `{ data, error }`
pair it resolves to (`data = none` models `null`, `error = none` models a
null/absent error), or a thrown exception. -/
inductive RemoteOutcome (T : Type) where
  | result : Option T → Option String → RemoteOutcome T
  | thrown : String → RemoteOutcome T

/-- Result of a `trySupabase` call, instrumented with which of the two
closures ran.  `result` is `Except` because a fallback closure may throw
(`loginPatient`); `trySupabase` does not catch fallback exceptions. -/
structure TryResult (T : Type) where
  result : Except String T
  remoteInvoked : Bool
  fallbackInvoked : Bool

/-- Exact embedding of `trySupabase`: if Supabase is enabled, await the
operation; return its data when there is no error and the data is not
null; on an error, null data, or a thrown exception fall back.  When
disabled, the operation is never invoked and the fallback runs. -/
def trySupabase {T : Type} (enabled : Bool) (operation : RemoteOutcome T)
    (fallback : Except String T) : TryResult T :=
  if enabled then
    match operation with
    | .result (some d) none => ⟨.ok d, true, false⟩
    | .result _ _ => ⟨fallback, true, true⟩
    | .thrown _ => ⟨fallback, true, true⟩
  else ⟨fallback, false, true⟩

/-- The random booking-code suffix: `Math.floor(1000 + Math.random() * 9000)`
with `Math.random()` modelled as a rational `q`. -/
def randomSuffix (q : ℚ) : Nat :=
  (Int.floor ((1000 : ℚ) + q * 9000)).toNat

/-- Exact embedding of the `newData` object built by `registerPatient`:
the caller's fields spread first, then the derived fields (booking code,
payment defaults, zero cost, `Pending` status, creation timestamp). -/
def registerNewData (data : List (String × JVal)) (randomNum : Nat)
    (now : String) : List (String × JVal) :=
  let bookingCode := "REG-" ++ Nat.repr randomNum
  objMerge data
    [("bookingCode", .str bookingCode),
     ("booking_code", .str bookingCode),
     ("payment_status",
       .str (if strictEqStr (data.lookup "payment") "bpjs" then "Paid" else "Unpaid")),
     ("payment_detail",
       if strictEqStr (data.lookup "payment") "bpjs" then .str "BPJS Kesehatan"
       else jsOr (data.lookup "payment_detail") (.str "Tunai")),
     ("cost", .num 0),
     ("status", .str "Pending"),
     ("created_at", .str now)]

/-- The two backing stores visible to one domain operation: the remote
`registrations` table and the browser's local storage. -/
structure World where
  remote : List JVal
  store : Store

/-- Outcome of a remote insert: the row is written to the remote table
exactly when the operation resolves with a null error (`ok`); a non-null
error or a thrown network exception leaves the remote table unchanged. -/
inductive RemoteWriteOutcome where
  | ok : RemoteWriteOutcome
  | errored : String → RemoteWriteOutcome
  | thrown : String → RemoteWriteOutcome

/-- Whether the remote path of `registerPatient` succeeds: enabled and the
insert resolved without error (its `data` object is always non-null). -/
def remoteInsertTaken (enabled : Bool) (out : RemoteWriteOutcome) : Bool :=
  enabled && (match out with | .ok => true | _ => false)

/-- Embedding of `registerPatient` at the level of the two backing stores:
build `newData`, then either the remote insert lands (leaving local
storage untouched) or the fallback closure appends `{ id: Date.now(),
...newData }` to the local `registrations` array (leaving the remote
table untouched).  `fallbackId` stands for `Date.now()`. -/
def registerPatientRun (enabled : Bool) (out : RemoteWriteOutcome) (w : World)
    (data : List (String × JVal)) (q : ℚ) (now : String) (fallbackId : Int) :
    World :=
  let newData := registerNewData data (randomSuffix q) now
  if remoteInsertTaken enabled out then
    { remote := w.remote ++ [.obj newData], store := w.store }
  else
    let regs := asList (getMockData w.store "registrations" (.arr []))
    let savedData : JVal := .obj (objMerge [("id", .num fallbackId)] newData)
    { remote := w.remote,
      store := setMockData w.store "registrations" (.arr (regs ++ [savedData])) }

/-- Shape of a successful `loginPatient` result. -/
structure LoginResult where
  found : Bool
  data : List JVal

/-- Exact embedding of the fallback closure of `loginPatient`: read the
stored registrations, filter by `r.nik === nik`; if any match, succeed
with the matches; else if the id has length at least 10, succeed with an
empty set; else throw `'NIK tidak ditemukan'`.  The closure never writes,
so the store is returned unchanged. -/
def loginPatientFallback (st : Store) (nik : String) :
    Except String LoginResult × Store :=
  let regs := asList (getMockData st "registrations" (.arr []))
  let patientRegs := regs.filter fun r => strictEqStr (getField r "nik") nik
  if patientRegs.length > 0 then (.ok ⟨true, patientRegs⟩, st)
  else if nik.length ≥ 10 then (.ok ⟨true, []⟩, st)
  else (.error "NIK tidak ditemukan", st)

/-- Exact embedding of the `updates` object built by `updateRegistration`:
`status` always; `payment_status`, `payment_detail`, `payment_proof` only
when truthy (a supplied empty string is skipped); `cost`, `class_type`,
`facility_notes` whenever not `undefined` (zero / empty string included).
The three guard shapes of the source are factored as combinators:
`entryIfTruthy` embeds `if (x) updates.k = x`, `entryIfDefinedStr` and
`entryIfDefinedNum` embed `if (x !== undefined) updates.k = x`. -/
def entryIfTruthy (k : String) (v : Option String) : List (String × JVal) :=
  match v with
  | some s => if s == "" then [] else [(k, .str s)]
  | none => []

def entryIfDefinedStr (k : String) (v : Option String) : List (String × JVal) :=
  match v with
  | some s => [(k, .str s)]
  | none => []

def entryIfDefinedNum (k : String) (v : Option Int) : List (String × JVal) :=
  match v with
  | some c => [(k, .num c)]
  | none => []

def updateRegistrationUpdates (status : String) (payment_status : Option String)
    (cost : Option Int) (payment_detail payment_proof : Option String)
    (class_type facility_notes : Option String) : List (String × JVal) :=
  [("status", .str status)]
  ++ entryIfTruthy "payment_status" payment_status
  ++ entryIfDefinedNum "cost" cost
  ++ entryIfTruthy "payment_detail" payment_detail
  ++ entryIfTruthy "payment_proof" payment_proof
  ++ entryIfDefinedStr "class_type" class_type
  ++ entryIfDefinedStr "facility_notes" facility_notes

/-- Generic embedding of the fallback closure shared by the update
operations (`updateRegistration`, `updateMessage`, `updateDoctor`,
`updateUser`, …): read the collection under `key` (with the operation's
default), find the first record with `r.id === id`; when found, replace it
by `{...record, ...updates}` and write the collection back; when absent,
write nothing.  Either way return `true`. -/
def updateByIdFallback (st : Store) (key : String) (dflt : List JVal)
    (id : Int) (updates : List (String × JVal)) : Bool × Store :=
  let items := asList (getMockData st key (.arr dflt))
  match items.findIdx? (fun r => strictEqNum (getField r "id") id) with
  | some idx =>
      (true, setMockData st key
        (.arr (items.set idx (.obj (objMerge (asObj (items.getD idx .null)) updates)))))
  | none => (true, st)

/-- The fallback closure of `updateRegistration`. -/
def updateRegistrationFallback (st : Store) (id : Int)
    (updates : List (String × JVal)) : Bool × Store :=
  updateByIdFallback st "registrations" [] id updates

/-- The fallback closure of `updateMessage`. -/
def updateMessageFallback (st : Store) (id : Int)
    (data : List (String × JVal)) : Bool × Store :=
  updateByIdFallback st "messages" [] id data

/-- The fallback closure of `updateDoctor` (its read defaults to
`MOCK_DOCTORS`). -/
def updateDoctorFallback (st : Store) (id : Int)
    (data : List (String × JVal)) : Bool × Store :=
  updateByIdFallback st "doctors" MOCK_DOCTORS id data

/-- The fallback closure of `updateUser`. -/
def updateUserFallback (st : Store) (id : Int)
    (data : List (String × JVal)) : Bool × Store :=
  updateByIdFallback st "users" [] id data

/-- Generic embedding of the fallback closure shared by the delete
operations: read the collection under `key`, filter out records with
`r.id === id` (keeping those whose id differs), write the filtered
collection back unconditionally, and return `true`. -/
def deleteByIdFallback (st : Store) (key : String) (dflt : List JVal)
    (id : Int) : Bool × Store :=
  let items := asList (getMockData st key (.arr dflt))
  (true, setMockData st key
    (.arr (items.filter fun r => !(strictEqNum (getField r "id") id))))

/-- The fallback closure of `deleteDoctor` (its read defaults to
`MOCK_DOCTORS`). -/
def deleteDoctorFallback (st : Store) (id : Int) : Bool × Store :=
  deleteByIdFallback st "doctors" MOCK_DOCTORS id

/-- The fallback closure of `deleteUser`. -/
def deleteUserFallback (st : Store) (id : Int) : Bool × Store :=
  deleteByIdFallback st "users" [] id

/-- The fallback closure of `deleteRoom`. -/
def deleteRoomFallback (st : Store) (id : Int) : Bool × Store :=
  deleteByIdFallback st "rooms" [] id

/-! ### Lookup lemmas for object spread and the store -/

theorem lookup_map_upd (new : List (String × JVal)) (k : String)
    (old : List (String × JVal)) :
    (old.map fun p =>
        match new.lookup p.1 with
        | some v => (p.1, v)
        | none => p).lookup k
      = (old.lookup k).map fun v => (new.lookup k).getD v := by
  induction old with
  | nil => rfl
  | cons p old ih =>
    obtain ⟨a, b⟩ := p
    by_cases hk : k = a
    · subst hk
      cases hnv : new.lookup k <;> simp [List.lookup_cons, hnv]
    · have hbeq : (k == a) = false := beq_false_of_ne hk
      cases hnv : new.lookup a <;> simp [List.lookup_cons, hbeq, hnv, ih]

theorem lookup_filter_isNone (old : List (String × JVal)) (k : String)
    (new : List (String × JVal)) :
    (new.filter fun p => (old.lookup p.1).isNone).lookup k
      = if (old.lookup k).isNone then new.lookup k else none := by
  induction new with
  | nil => cases h : (old.lookup k).isNone <;> simp [h]
  | cons p new ih =>
    obtain ⟨a, b⟩ := p
    by_cases hk : k = a
    · subst hk
      cases h : old.lookup k <;>
        simp [List.filter_cons, List.lookup_cons, h, ih]
    · have hbeq : (k == a) = false := beq_false_of_ne hk
      cases h : old.lookup a <;>
        simp [List.filter_cons, List.lookup_cons, hbeq, h, ih]

/-- Lookup on an object spread: the update object wins, otherwise the old
field survives. -/
theorem objMerge_lookup (old new : List (String × JVal)) (k : String) :
    (objMerge old new).lookup k = (new.lookup k).or (old.lookup k) := by
  unfold objMerge
  rw [List.lookup_append, lookup_map_upd, lookup_filter_isNone]
  cases ho : old.lookup k <;> cases hn : new.lookup k <;> simp [Option.or]

theorem getField_eq_asObj_lookup (r : JVal) (k : String) :
    getField r k = (asObj r).lookup k := by
  cases r <;> rfl

/-- Field of a spread `{...r, ...u}` as a function of the update object and
the old record. -/
theorem getField_spread (r : JVal) (u : List (String × JVal)) (k : String) :
    getField (.obj (objMerge (asObj r) u)) k = (u.lookup k).or (getField r k) := by
  rw [getField, objMerge_lookup, getField_eq_asObj_lookup]

theorem getMockData_set_self (st : Store) (k : String) (v d : JVal) :
    getMockData (setMockData st k v) k d = v := by
  simp [getMockData, setMockData]

theorem lookup_set_ne (st : Store) (k k' : String) (v : JVal) (h : k' ≠ k) :
    (setMockData st k v).lookup k' = st.lookup k' := by
  simp [setMockData, List.lookup_cons, beq_false_of_ne h]

/-! ### Decimal string representation of the booking-code suffix -/

theorem toDigitsCore_succ (b f n : Nat) (ds : List Char) :
    Nat.toDigitsCore b (f + 1) n ds
      = if n / b = 0 then Nat.digitChar (n % b) :: ds
        else Nat.toDigitsCore b f (n / b) (Nat.digitChar (n % b) :: ds) := rfl

theorem toDigitsCore_fuel (b : Nat) (hb : 2 ≤ b) :
    ∀ f f' n ds, n < f → n < f' →
      Nat.toDigitsCore b f n ds = Nat.toDigitsCore b f' n ds := by
  intro f
  induction f with
  | zero => omega
  | succ f ih =>
    intro f' n ds hf hf'
    cases f' with
    | zero => omega
    | succ f' =>
      rw [toDigitsCore_succ, toDigitsCore_succ]
      by_cases h0 : n / b = 0
      · simp [h0]
      · rw [if_neg h0, if_neg h0]
        have hn : 0 < n := by
          rcases Nat.eq_zero_or_pos n with h | h
          · subst h; simp at h0
          · exact h
        have hdiv : n / b < n := Nat.div_lt_self hn (by omega)
        exact ih f' (n / b) _ (by omega) (by omega)

theorem toDigitsCore_renorm (b : Nat) (hb : 2 ≤ b) (f n : Nat) (ds : List Char)
    (h : n < f) : Nat.toDigitsCore b f n ds = Nat.toDigitsCore b (n + 1) n ds :=
  toDigitsCore_fuel b hb f (n + 1) n ds h (Nat.lt_succ_self n)

theorem toDigitsCore_step (b n : Nat) (ds : List Char) (hb : 2 ≤ b)
    (h : n / b ≠ 0) :
    Nat.toDigitsCore b (n + 1) n ds
      = Nat.toDigitsCore b (n / b + 1) (n / b) (Nat.digitChar (n % b) :: ds) := by
  rw [toDigitsCore_succ, if_neg h]
  have hn : 0 < n := by
    rcases Nat.eq_zero_or_pos n with h' | h'
    · subst h'; simp at h
    · exact h'
  exact toDigitsCore_renorm b hb n (n / b) _ (Nat.div_lt_self hn (by omega))

theorem toDigitsCore_base (b n : Nat) (ds : List Char) (h : n / b = 0) :
    Nat.toDigitsCore b (n + 1) n ds = Nat.digitChar (n % b) :: ds := by
  rw [toDigitsCore_succ, if_pos h]

/-- Decimal representation of a four-digit number, character by
character. -/
theorem repr_eq_four_digits (n : Nat) (h1 : 1000 ≤ n) (h2 : n ≤ 9999) :
    Nat.repr n
      = String.mk [Nat.digitChar (n / 1000), Nat.digitChar (n / 100 % 10),
          Nat.digitChar (n / 10 % 10), Nat.digitChar (n % 10)] := by
  have d1 : n / 10 / 10 = n / 100 := by omega
  have d2 : n / 100 / 10 = n / 1000 := by omega
  have h10 : n / 10 ≠ 0 := by omega
  have h100 : n / 100 ≠ 0 := by omega
  have h1000 : n / 1000 ≠ 0 := by omega
  have hlast : n / 1000 / 10 = 0 := by omega
  have hmod : n / 1000 % 10 = n / 1000 := by omega
  show (Nat.toDigits 10 n).asString = _
  rw [Nat.toDigits]
  rw [toDigitsCore_step 10 n [] (by omega) h10]
  rw [toDigitsCore_step 10 (n / 10) _ (by omega) (by rw [d1]; exact h100), d1]
  rw [toDigitsCore_step 10 (n / 100) _ (by omega) (by rw [d2]; exact h1000), d2]
  rw [toDigitsCore_base 10 (n / 1000) _ hlast, hmod]
  rfl

theorem repr_length_four (n : Nat) (h1 : 1000 ≤ n) (h2 : n ≤ 9999) :
    (Nat.repr n).length = 4 := by
  rw [repr_eq_four_digits n h1 h2]; rfl

theorem digitChar_inj_lt10 :
    ∀ a < 10, ∀ b < 10, Nat.digitChar a = Nat.digitChar b → a = b := by decide

theorem digitChar_isDigit : ∀ a < 10, (Nat.digitChar a).isDigit = true := by
  decide

theorem repr_inj_four (m n : Nat) (hm1 : 1000 ≤ m) (hm2 : m ≤ 9999)
    (hn1 : 1000 ≤ n) (hn2 : n ≤ 9999) (h : Nat.repr m = Nat.repr n) : m = n := by
  rw [repr_eq_four_digits m hm1 hm2, repr_eq_four_digits n hn1 hn2] at h
  have h' : [Nat.digitChar (m / 1000), Nat.digitChar (m / 100 % 10),
      Nat.digitChar (m / 10 % 10), Nat.digitChar (m % 10)]
      = [Nat.digitChar (n / 1000), Nat.digitChar (n / 100 % 10),
        Nat.digitChar (n / 10 % 10), Nat.digitChar (n % 10)] :=
    congrArg String.data h
  simp only [List.cons.injEq, and_true] at h'
  obtain ⟨e1, e2, e3, e4⟩ := h'
  have g1 := digitChar_inj_lt10 (m / 1000) (by omega) (n / 1000) (by omega) e1
  have g2 := digitChar_inj_lt10 (m / 100 % 10) (by omega) (n / 100 % 10) (by omega) e2
  have g3 := digitChar_inj_lt10 (m / 10 % 10) (by omega) (n / 10 % 10) (by omega) e3
  have g4 := digitChar_inj_lt10 (m % 10) (by omega) (n % 10) (by omega) e4
  omega

theorem string_append_left_cancel (s t u : String) (h : s ++ t = s ++ u) :
    t = u := by
  obtain ⟨ls⟩ := s
  obtain ⟨lt⟩ := t
  obtain ⟨lu⟩ := u
  have h' : ls ++ lt = ls ++ lu := congrArg String.data h
  exact congrArg String.mk (List.append_cancel_left h')

/-- Bounds of the random booking-code suffix, from `Math.random() ∈ [0, 1)`. -/
theorem randomSuffix_bounds (q : ℚ) (h0 : 0 ≤ q) (h1 : q < 1) :
    1000 ≤ randomSuffix q ∧ randomSuffix q ≤ 9999 := by
  unfold randomSuffix
  have hlb : (1000 : ℤ) ≤ Int.floor ((1000 : ℚ) + q * 9000) := by
    rw [Int.le_floor]
    push_cast
    nlinarith
  have hub : Int.floor ((1000 : ℚ) + q * 9000) < 10000 := by
    rw [Int.floor_lt]
    push_cast
    nlinarith
  omega

/-! ### Lookup lemmas for the update-building combinators -/

theorem entryIfTruthy_lookup_ne (k k' : String) (v : Option String)
    (h : k' ≠ k) : (entryIfTruthy k v).lookup k' = none := by
  cases v with
  | none => rfl
  | some s =>
    by_cases hs : s == "" <;>
      simp [entryIfTruthy, hs, List.lookup_cons, beq_false_of_ne h]

theorem entryIfDefinedStr_lookup_ne (k k' : String) (v : Option String)
    (h : k' ≠ k) : (entryIfDefinedStr k v).lookup k' = none := by
  cases v with
  | none => rfl
  | some s => simp [entryIfDefinedStr, List.lookup_cons, beq_false_of_ne h]

theorem entryIfDefinedNum_lookup_ne (k k' : String) (v : Option Int)
    (h : k' ≠ k) : (entryIfDefinedNum k v).lookup k' = none := by
  cases v with
  | none => rfl
  | some c => simp [entryIfDefinedNum, List.lookup_cons, beq_false_of_ne h]

theorem entryIfTruthy_lookup_self (k : String) (v : Option String) :
    (entryIfTruthy k v).lookup k
      = match v with
        | some s => if s == "" then none else some (.str s)
        | none => none := by
  cases v with
  | none => rfl
  | some s =>
    by_cases hs : s == "" <;> simp [entryIfTruthy, hs, List.lookup_cons]

theorem entryIfDefinedStr_lookup_self (k : String) (v : Option String) :
    (entryIfDefinedStr k v).lookup k
      = match v with
        | some s => some (JVal.str s)
        | none => none := by
  cases v with
  | none => rfl
  | some s => simp [entryIfDefinedStr, List.lookup_cons]

theorem entryIfDefinedNum_lookup_self (k : String) (v : Option Int) :
    (entryIfDefinedNum k v).lookup k
      = match v with
        | some c => some (JVal.num c)
        | none => none := by
  cases v with
  | none => rfl
  | some c => simp [entryIfDefinedNum, List.lookup_cons]

theorem strictEqStr_eq_true_iff (v : Option JVal) (s : String) :
    strictEqStr v s = true ↔ v = some (.str s) := by
  cases v with
  | none => simp [strictEqStr]
  | some w => cases w <;> simp [strictEqStr]

/-! ### Claim theorems -/

/-- C1: for every remote operation outcome and fallback result,
`trySupabase` returns the remote operation's data exactly when the remote
path is enabled, the operation resolves without throwing, its error field
is null, and its data is non-null; in every other case (non-null error,
null data, thrown exception, or disabled flag) it returns the fallback's
result with the fallback invoked — and when disabled, the remote
operation is never invoked (`remoteInvoked = false`). -/
theorem trySupabase_remote_or_fallback (T : Type) (fb : Except String T) :
    (∀ d : T,
      trySupabase true (.result (some d) none) fb = ⟨.ok d, true, false⟩)
    ∧ (∀ (d : Option T) (e : String),
      trySupabase true (.result d (some e)) fb = ⟨fb, true, true⟩)
    ∧ (∀ e : Option String,
      trySupabase true (.result none e) fb = ⟨fb, true, true⟩)
    ∧ (∀ e : String, trySupabase true (.thrown e) fb = ⟨fb, true, true⟩)
    ∧ (∀ op : RemoteOutcome T,
      trySupabase false op fb = ⟨fb, false, true⟩) := by
  refine ⟨fun d => rfl, fun d e => ?_, fun e => ?_, fun e => rfl, fun op => rfl⟩
  · cases d <;> rfl
  · cases e <;> rfl

/-- C5: a `setMockData` write followed by a `getMockData` read of the same
key returns the written array, for any caller-supplied default. -/
theorem setMockData_getMockData_roundtrip (st : Store) (key : String)
    (xs : List JVal) (defaultData : JVal) :
    getMockData (setMockData st key (.arr xs)) key defaultData = .arr xs :=
  getMockData_set_self st key (.arr xs) defaultData

/-- C7: `getMockData` returns the parsed array stored under the key; when
the key is absent, or the stored entry is corrupt, it returns the
caller-supplied default (and, being a total function, no exception
escapes it). -/
theorem getMockData_spec (st : Store) (key : String) (defaultData : JVal) :
    (∀ v, st.lookup key = some (.good v) → getMockData st key defaultData = v)
    ∧ (st.lookup key = none → getMockData st key defaultData = defaultData)
    ∧ (st.lookup key = some .bad →
        getMockData st key defaultData = defaultData) := by
  refine ⟨fun v hv => ?_, fun h => ?_, fun h => ?_⟩ <;> simp [getMockData, *]

/-- Witness for C7 on a concrete store: a parsable entry is returned, a
missing key and a corrupt entry yield the default. -/
theorem getMockData_spec_witness :
    getMockData [("k", Cell.good (JVal.num 5))] "k" JVal.null = JVal.num 5
    ∧ getMockData [("k", Cell.good (JVal.num 5))] "m" JVal.null = JVal.null
    ∧ getMockData [("k", Cell.bad)] "k" JVal.null = JVal.null :=
  ⟨(getMockData_spec [("k", Cell.good (JVal.num 5))] "k" JVal.null).1
      (JVal.num 5) rfl,
   (getMockData_spec [("k", Cell.good (JVal.num 5))] "m" JVal.null).2.1 rfl,
   (getMockData_spec [("k", Cell.bad)] "k" JVal.null).2.2 rfl⟩

/-- C3: in fallback mode, `loginPatient` with an id matching at least one
stored registration succeeds with exactly the matching records; with no
match and an id of length at least 10 it succeeds with an empty record
set; with no match and a shorter id it throws `'NIK tidak ditemukan'`;
the store is returned unchanged in every case. -/
theorem loginPatient_fallback_cases (st : Store) (nik : String)
    (regs : List JVal)
    (h : getMockData st "registrations" (.arr []) = .arr regs) :
    (regs.filter (fun r => strictEqStr (getField r "nik") nik) ≠ [] →
      loginPatientFallback st nik
        = (.ok ⟨true, regs.filter fun r => strictEqStr (getField r "nik") nik⟩,
           st))
    ∧ (regs.filter (fun r => strictEqStr (getField r "nik") nik) = [] →
        10 ≤ nik.length →
        loginPatientFallback st nik = (.ok ⟨true, []⟩, st))
    ∧ (regs.filter (fun r => strictEqStr (getField r "nik") nik) = [] →
        nik.length < 10 →
        loginPatientFallback st nik = (.error "NIK tidak ditemukan", st)) := by
  refine ⟨fun hne => ?_, fun he hlen => ?_, fun he hlen => ?_⟩
  · simp only [loginPatientFallback, h, asList]
    rw [if_pos (List.length_pos.mpr hne)]
  · simp only [loginPatientFallback, h, asList, he]
    rw [if_neg (by simp), if_pos hlen]
  · simp only [loginPatientFallback, h, asList, he]
    rw [if_neg (by simp), if_neg (by omega)]

/-- Witness for C3 on a concrete store holding one registration with
national id `12345`: that id logs in with the record, a ten-character
unknown id logs in with no records, and a short unknown id throws. -/
theorem loginPatient_fallback_witness :
    loginPatientFallback
        [("registrations", Cell.good (.arr [.obj [("nik", .str "12345")]]))]
        "12345"
      = (.ok ⟨true, [.obj [("nik", .str "12345")]]⟩,
         [("registrations", Cell.good (.arr [.obj [("nik", .str "12345")]]))])
    ∧ loginPatientFallback
        [("registrations", Cell.good (.arr [.obj [("nik", .str "12345")]]))]
        "9999999999"
      = (.ok ⟨true, []⟩,
         [("registrations", Cell.good (.arr [.obj [("nik", .str "12345")]]))])
    ∧ loginPatientFallback
        [("registrations", Cell.good (.arr [.obj [("nik", .str "12345")]]))]
        "77"
      = (.error "NIK tidak ditemukan",
         [("registrations", Cell.good (.arr [.obj [("nik", .str "12345")]]))]) :=
  ⟨(loginPatient_fallback_cases
      [("registrations", Cell.good (.arr [.obj [("nik", .str "12345")]]))]
      "12345" [.obj [("nik", .str "12345")]]
      rfl).1 (by simp [strictEqStr, getField, List.lookup_cons]),
   (loginPatient_fallback_cases
      [("registrations", Cell.good (.arr [.obj [("nik", .str "12345")]]))]
      "9999999999" [.obj [("nik", .str "12345")]]
      rfl).2.1 rfl (by decide),
   (loginPatient_fallback_cases
      [("registrations", Cell.good (.arr [.obj [("nik", .str "12345")]]))]
      "77" [.obj [("nik", .str "12345")]]
      rfl).2.2 rfl (by decide)⟩

/-! ### Field lookups on the object built by `registerPatient` -/

theorem registerNewData_lookup_booking (data : List (String × JVal))
    (r : Nat) (now : String) :
    (registerNewData data r now).lookup "booking_code"
      = some (.str ("REG-" ++ Nat.repr r)) := by
  simp only [registerNewData]
  rw [objMerge_lookup]
  rfl

theorem registerNewData_lookup_bookingCamel (data : List (String × JVal))
    (r : Nat) (now : String) :
    (registerNewData data r now).lookup "bookingCode"
      = some (.str ("REG-" ++ Nat.repr r)) := by
  simp only [registerNewData]
  rw [objMerge_lookup]
  rfl

theorem registerNewData_lookup_payment_status (data : List (String × JVal))
    (r : Nat) (now : String) :
    (registerNewData data r now).lookup "payment_status"
      = some (.str (if strictEqStr (data.lookup "payment") "bpjs"
          then "Paid" else "Unpaid")) := by
  simp only [registerNewData]
  rw [objMerge_lookup]
  rfl

theorem registerNewData_lookup_payment_detail (data : List (String × JVal))
    (r : Nat) (now : String) :
    (registerNewData data r now).lookup "payment_detail"
      = some (if strictEqStr (data.lookup "payment") "bpjs"
          then .str "BPJS Kesehatan"
          else jsOr (data.lookup "payment_detail") (.str "Tunai")) := by
  simp only [registerNewData]
  rw [objMerge_lookup]
  rfl

theorem registerNewData_lookup_cost (data : List (String × JVal))
    (r : Nat) (now : String) :
    (registerNewData data r now).lookup "cost" = some (.num 0) := by
  simp only [registerNewData]
  rw [objMerge_lookup]
  rfl

theorem registerNewData_lookup_status (data : List (String × JVal))
    (r : Nat) (now : String) :
    (registerNewData data r now).lookup "status" = some (.str "Pending") := by
  simp only [registerNewData]
  rw [objMerge_lookup]
  rfl

/-- C2: `registerPatient` derives a booking code `REG-` followed by
exactly four decimal digits (suffix in `1000..9999`); `payment_status` is
`Paid` iff the chosen payment is `bpjs` and `Unpaid` otherwise;
`payment_detail` is `BPJS Kesehatan` for `bpjs`, else the supplied
truthy `payment_detail`, else `Tunai`; `cost` is `0` and `status` is
`Pending`; and two registrations produce distinct booking codes exactly
when their random suffixes differ. -/
theorem registerPatient_defaults (data : List (String × JVal)) (q : ℚ)
    (now : String) (h0 : 0 ≤ q) (h1 : q < 1) :
    (1000 ≤ randomSuffix q ∧ randomSuffix q ≤ 9999)
    ∧ (registerNewData data (randomSuffix q) now).lookup "booking_code"
        = some (.str ("REG-" ++ Nat.repr (randomSuffix q)))
    ∧ (registerNewData data (randomSuffix q) now).lookup "bookingCode"
        = some (.str ("REG-" ++ Nat.repr (randomSuffix q)))
    ∧ (Nat.repr (randomSuffix q)).length = 4
    ∧ (∀ c ∈ (Nat.repr (randomSuffix q)).data, c.isDigit = true)
    ∧ (data.lookup "payment" = some (.str "bpjs") →
        (registerNewData data (randomSuffix q) now).lookup "payment_status"
          = some (.str "Paid"))
    ∧ (data.lookup "payment" ≠ some (.str "bpjs") →
        (registerNewData data (randomSuffix q) now).lookup "payment_status"
          = some (.str "Unpaid"))
    ∧ (data.lookup "payment" = some (.str "bpjs") →
        (registerNewData data (randomSuffix q) now).lookup "payment_detail"
          = some (.str "BPJS Kesehatan"))
    ∧ (data.lookup "payment" ≠ some (.str "bpjs") →
        truthyOpt (data.lookup "payment_detail") = true →
        (registerNewData data (randomSuffix q) now).lookup "payment_detail"
          = data.lookup "payment_detail")
    ∧ (data.lookup "payment" ≠ some (.str "bpjs") →
        truthyOpt (data.lookup "payment_detail") = false →
        (registerNewData data (randomSuffix q) now).lookup "payment_detail"
          = some (.str "Tunai"))
    ∧ (registerNewData data (randomSuffix q) now).lookup "cost"
        = some (.num 0)
    ∧ (registerNewData data (randomSuffix q) now).lookup "status"
        = some (.str "Pending")
    ∧ (∀ q2 : ℚ, 0 ≤ q2 → q2 < 1 → ∀ (data2 : List (String × JVal))
        (now2 : String), randomSuffix q ≠ randomSuffix q2 →
        (registerNewData data (randomSuffix q) now).lookup "booking_code"
          ≠ (registerNewData data2 (randomSuffix q2) now2).lookup
              "booking_code") := by
  obtain ⟨hlo, hhi⟩ := randomSuffix_bounds q h0 h1
  have hchars := repr_eq_four_digits (randomSuffix q) hlo hhi
  refine ⟨⟨hlo, hhi⟩, registerNewData_lookup_booking data _ now,
    registerNewData_lookup_bookingCamel data _ now,
    repr_length_four _ hlo hhi, ?_, ?_, ?_, ?_, ?_, ?_,
    registerNewData_lookup_cost data _ now,
    registerNewData_lookup_status data _ now, ?_⟩
  · intro c hc
    rw [hchars] at hc
    have hc' : c ∈ [Nat.digitChar (randomSuffix q / 1000),
        Nat.digitChar (randomSuffix q / 100 % 10),
        Nat.digitChar (randomSuffix q / 10 % 10),
        Nat.digitChar (randomSuffix q % 10)] := hc
    simp only [List.mem_cons, List.not_mem_nil, or_false] at hc'
    rcases hc' with rfl | rfl | rfl | rfl
    · exact digitChar_isDigit _ (by omega)
    · exact digitChar_isDigit _ (by omega)
    · exact digitChar_isDigit _ (by omega)
    · exact digitChar_isDigit _ (by omega)
  · intro hb
    rw [registerNewData_lookup_payment_status]
    rw [if_pos ((strictEqStr_eq_true_iff _ _).mpr hb)]
  · intro hb
    rw [registerNewData_lookup_payment_status]
    rw [if_neg (fun hx => hb ((strictEqStr_eq_true_iff _ _).mp hx))]
  · intro hb
    rw [registerNewData_lookup_payment_detail]
    rw [if_pos ((strictEqStr_eq_true_iff _ _).mpr hb)]
  · intro hb ht
    rw [registerNewData_lookup_payment_detail]
    rw [if_neg (fun hx => hb ((strictEqStr_eq_true_iff _ _).mp hx))]
    unfold jsOr
    rw [if_pos ht]
    cases hv : data.lookup "payment_detail" with
    | none => rw [hv] at ht; simp [truthyOpt] at ht
    | some v => simp
  · intro hb ht
    rw [registerNewData_lookup_payment_detail]
    rw [if_neg (fun hx => hb ((strictEqStr_eq_true_iff _ _).mp hx))]
    unfold jsOr
    rw [if_neg (by simp [ht])]
  · intro q2 h02 h12 data2 now2 hne
    obtain ⟨hlo2, hhi2⟩ := randomSuffix_bounds q2 h02 h12
    rw [registerNewData_lookup_booking, registerNewData_lookup_booking]
    intro hx
    apply hne
    apply repr_inj_four _ _ hlo hhi hlo2 hhi2
    apply string_append_left_cancel "REG-"
    have hx' := hx
    simp only [Option.some.injEq, JVal.str.injEq] at hx'
    exact hx'

/-- Witness for C2 at `Math.random() = 1/2` (suffix `5500`) and a BPJS
registration. -/
theorem registerPatient_defaults_witness :
    (1000 ≤ randomSuffix (1 / 2) ∧ randomSuffix (1 / 2) ≤ 9999)
    ∧ (registerNewData [("payment", JVal.str "bpjs")] (randomSuffix (1 / 2))
        "now").lookup "payment_status" = some (.str "Paid") :=
  ⟨(registerPatient_defaults [("payment", JVal.str "bpjs")] (1 / 2) "now"
      (by norm_num) (by norm_num)).1,
   (registerPatient_defaults [("payment", JVal.str "bpjs")] (1 / 2) "now"
      (by norm_num) (by norm_num)).2.2.2.2.2.1 rfl⟩

/-! ### Key-by-key lookups on the `updateRegistration` updates object -/

theorem urUpd_lookup_status (status : String) (ps : Option String)
    (cost : Option Int) (pd pp ct fn : Option String) :
    (updateRegistrationUpdates status ps cost pd pp ct fn).lookup "status"
      = some (.str status) := by
  simp only [updateRegistrationUpdates, List.lookup_append]
  rw [entryIfTruthy_lookup_ne "payment_status" _ _ (by decide),
      entryIfDefinedNum_lookup_ne "cost" _ _ (by decide),
      entryIfTruthy_lookup_ne "payment_detail" _ _ (by decide),
      entryIfTruthy_lookup_ne "payment_proof" _ _ (by decide),
      entryIfDefinedStr_lookup_ne "class_type" _ _ (by decide),
      entryIfDefinedStr_lookup_ne "facility_notes" _ _ (by decide)]
  rfl

theorem urUpd_lookup_ps_skip (status : String) (v : Option String)
    (cost : Option Int) (pd pp ct fn : Option String)
    (hv : v = none ∨ v = some "") :
    (updateRegistrationUpdates status v cost pd pp ct fn).lookup
        "payment_status" = none := by
  have he : entryIfTruthy "payment_status" v = [] := by
    rcases hv with rfl | rfl <;> rfl
  simp only [updateRegistrationUpdates, List.lookup_append, he]
  rw [entryIfDefinedNum_lookup_ne "cost" _ _ (by decide),
      entryIfTruthy_lookup_ne "payment_detail" _ _ (by decide),
      entryIfTruthy_lookup_ne "payment_proof" _ _ (by decide),
      entryIfDefinedStr_lookup_ne "class_type" _ _ (by decide),
      entryIfDefinedStr_lookup_ne "facility_notes" _ _ (by decide)]
  rfl

theorem urUpd_lookup_pd_skip (status : String) (ps : Option String)
    (cost : Option Int) (v pp ct fn : Option String)
    (hv : v = none ∨ v = some "") :
    (updateRegistrationUpdates status ps cost v pp ct fn).lookup
        "payment_detail" = none := by
  have he : entryIfTruthy "payment_detail" v = [] := by
    rcases hv with rfl | rfl <;> rfl
  simp only [updateRegistrationUpdates, List.lookup_append, he]
  rw [entryIfTruthy_lookup_ne "payment_status" _ _ (by decide),
      entryIfDefinedNum_lookup_ne "cost" _ _ (by decide),
      entryIfTruthy_lookup_ne "payment_proof" _ _ (by decide),
      entryIfDefinedStr_lookup_ne "class_type" _ _ (by decide),
      entryIfDefinedStr_lookup_ne "facility_notes" _ _ (by decide)]
  rfl

theorem urUpd_lookup_pp_skip (status : String) (ps : Option String)
    (cost : Option Int) (pd v ct fn : Option String)
    (hv : v = none ∨ v = some "") :
    (updateRegistrationUpdates status ps cost pd v ct fn).lookup
        "payment_proof" = none := by
  have he : entryIfTruthy "payment_proof" v = [] := by
    rcases hv with rfl | rfl <;> rfl
  simp only [updateRegistrationUpdates, List.lookup_append, he]
  rw [entryIfTruthy_lookup_ne "payment_status" _ _ (by decide),
      entryIfDefinedNum_lookup_ne "cost" _ _ (by decide),
      entryIfTruthy_lookup_ne "payment_detail" _ _ (by decide),
      entryIfDefinedStr_lookup_ne "class_type" _ _ (by decide),
      entryIfDefinedStr_lookup_ne "facility_notes" _ _ (by decide)]
  rfl

theorem urUpd_lookup_cost_none (status : String) (ps pd pp ct fn : Option String) :
    (updateRegistrationUpdates status ps none pd pp ct fn).lookup "cost"
      = none := by
  simp only [updateRegistrationUpdates, List.lookup_append]
  rw [entryIfTruthy_lookup_ne "payment_status" _ _ (by decide),
      entryIfTruthy_lookup_ne "payment_detail" _ _ (by decide),
      entryIfTruthy_lookup_ne "payment_proof" _ _ (by decide),
      entryIfDefinedStr_lookup_ne "class_type" _ _ (by decide),
      entryIfDefinedStr_lookup_ne "facility_notes" _ _ (by decide)]
  rfl

theorem urUpd_lookup_cost_some (status : String) (ps : Option String)
    (c : Int) (pd pp ct fn : Option String) :
    (updateRegistrationUpdates status ps (some c) pd pp ct fn).lookup "cost"
      = some (.num c) := by
  simp only [updateRegistrationUpdates, List.lookup_append]
  rw [entryIfTruthy_lookup_ne "payment_status" _ _ (by decide),
      entryIfTruthy_lookup_ne "payment_detail" _ _ (by decide),
      entryIfTruthy_lookup_ne "payment_proof" _ _ (by decide),
      entryIfDefinedStr_lookup_ne "class_type" _ _ (by decide),
      entryIfDefinedStr_lookup_ne "facility_notes" _ _ (by decide)]
  rfl

theorem urUpd_lookup_ct_none (status : String) (ps : Option String)
    (cost : Option Int) (pd pp fn : Option String) :
    (updateRegistrationUpdates status ps cost pd pp none fn).lookup
        "class_type" = none := by
  simp only [updateRegistrationUpdates, List.lookup_append]
  rw [entryIfTruthy_lookup_ne "payment_status" _ _ (by decide),
      entryIfDefinedNum_lookup_ne "cost" _ _ (by decide),
      entryIfTruthy_lookup_ne "payment_detail" _ _ (by decide),
      entryIfTruthy_lookup_ne "payment_proof" _ _ (by decide),
      entryIfDefinedStr_lookup_ne "facility_notes" _ _ (by decide)]
  rfl

theorem urUpd_lookup_ct_some (status : String) (ps : Option String)
    (cost : Option Int) (pd pp : Option String) (s : String)
    (fn : Option String) :
    (updateRegistrationUpdates status ps cost pd pp (some s) fn).lookup
        "class_type" = some (.str s) := by
  simp only [updateRegistrationUpdates, List.lookup_append]
  rw [entryIfTruthy_lookup_ne "payment_status" _ _ (by decide),
      entryIfDefinedNum_lookup_ne "cost" _ _ (by decide),
      entryIfTruthy_lookup_ne "payment_detail" _ _ (by decide),
      entryIfTruthy_lookup_ne "payment_proof" _ _ (by decide),
      entryIfDefinedStr_lookup_ne "facility_notes" _ _ (by decide)]
  rfl

theorem urUpd_lookup_fn_none (status : String) (ps : Option String)
    (cost : Option Int) (pd pp ct : Option String) :
    (updateRegistrationUpdates status ps cost pd pp ct none).lookup
        "facility_notes" = none := by
  simp only [updateRegistrationUpdates, List.lookup_append]
  rw [entryIfTruthy_lookup_ne "payment_status" _ _ (by decide),
      entryIfDefinedNum_lookup_ne "cost" _ _ (by decide),
      entryIfTruthy_lookup_ne "payment_detail" _ _ (by decide),
      entryIfTruthy_lookup_ne "payment_proof" _ _ (by decide),
      entryIfDefinedStr_lookup_ne "class_type" _ _ (by decide)]
  rfl

theorem urUpd_lookup_fn_some (status : String) (ps : Option String)
    (cost : Option Int) (pd pp ct : Option String) (s : String) :
    (updateRegistrationUpdates status ps cost pd pp ct (some s)).lookup
        "facility_notes" = some (.str s) := by
  simp only [updateRegistrationUpdates, List.lookup_append]
  rw [entryIfTruthy_lookup_ne "payment_status" _ _ (by decide),
      entryIfDefinedNum_lookup_ne "cost" _ _ (by decide),
      entryIfTruthy_lookup_ne "payment_detail" _ _ (by decide),
      entryIfTruthy_lookup_ne "payment_proof" _ _ (by decide),
      entryIfDefinedStr_lookup_ne "class_type" _ _ (by decide)]
  rfl

theorem urUpd_lookup_other (status : String) (ps : Option String)
    (cost : Option Int) (pd pp ct fn : Option String) (k : String)
    (h1 : k ≠ "status") (h2 : k ≠ "payment_status") (h3 : k ≠ "cost")
    (h4 : k ≠ "payment_detail") (h5 : k ≠ "payment_proof")
    (h6 : k ≠ "class_type") (h7 : k ≠ "facility_notes") :
    (updateRegistrationUpdates status ps cost pd pp ct fn).lookup k
      = none := by
  simp only [updateRegistrationUpdates, List.lookup_append]
  rw [entryIfTruthy_lookup_ne "payment_status" _ _ h2,
      entryIfDefinedNum_lookup_ne "cost" _ _ h3,
      entryIfTruthy_lookup_ne "payment_detail" _ _ h4,
      entryIfTruthy_lookup_ne "payment_proof" _ _ h5,
      entryIfDefinedStr_lookup_ne "class_type" _ _ h6,
      entryIfDefinedStr_lookup_ne "facility_notes" _ _ h7]
  simp [List.lookup_cons, beq_false_of_ne h1]

/-- C4: in `updateRegistration`, only the fields actually given are
written: the fallback replaces only the matched record by
`{...record, ...updates}`; optional fields left unspecified (`none`) keep
the stored values; every field outside the update keys, every other
record, and every other storage key are unchanged. -/
theorem updateRegistration_frame
    (st : Store) (id : Int) (status : String) (ps : Option String)
    (cost : Option Int) (pd pp ct fn : Option String)
    (regs : List JVal) (idx : Nat) (u : List (String × JVal)) (merged : JVal)
    (hu : u = updateRegistrationUpdates status ps cost pd pp ct fn)
    (h : getMockData st "registrations" (.arr []) = .arr regs)
    (hidx : regs.findIdx? (fun r => strictEqNum (getField r "id") id)
        = some idx)
    (hm : merged = .obj (objMerge (asObj (regs.getD idx .null)) u)) :
    updateRegistrationFallback st id u
      = (true, setMockData st "registrations" (.arr (regs.set idx merged)))
    ∧ (ps = none → getField merged "payment_status"
        = getField (regs.getD idx .null) "payment_status")
    ∧ (cost = none → getField merged "cost"
        = getField (regs.getD idx .null) "cost")
    ∧ (pd = none → getField merged "payment_detail"
        = getField (regs.getD idx .null) "payment_detail")
    ∧ (pp = none → getField merged "payment_proof"
        = getField (regs.getD idx .null) "payment_proof")
    ∧ (ct = none → getField merged "class_type"
        = getField (regs.getD idx .null) "class_type")
    ∧ (fn = none → getField merged "facility_notes"
        = getField (regs.getD idx .null) "facility_notes")
    ∧ (∀ k, k ∉ ["status", "payment_status", "cost", "payment_detail",
          "payment_proof", "class_type", "facility_notes"] →
        getField merged k = getField (regs.getD idx .null) k)
    ∧ (∀ j, j ≠ idx →
        (regs.set idx merged).getD j .null = regs.getD j .null)
    ∧ (∀ k, k ≠ "registrations" →
        (setMockData st "registrations"
            (.arr (regs.set idx merged))).lookup k
          = st.lookup k) := by
  subst hu
  subst hm
  refine ⟨?_, ?_, ?_, ?_, ?_, ?_, ?_, ?_, ?_, ?_⟩
  · simp only [updateRegistrationFallback, updateByIdFallback, h, asList,
      hidx]
  · intro hps; subst hps
    rw [getField_spread,
      urUpd_lookup_ps_skip _ _ _ _ _ _ _ (Or.inl rfl), Option.none_or]
  · intro hc; subst hc
    rw [getField_spread, urUpd_lookup_cost_none, Option.none_or]
  · intro hpd; subst hpd
    rw [getField_spread,
      urUpd_lookup_pd_skip _ _ _ _ _ _ _ (Or.inl rfl), Option.none_or]
  · intro hpp; subst hpp
    rw [getField_spread,
      urUpd_lookup_pp_skip _ _ _ _ _ _ _ (Or.inl rfl), Option.none_or]
  · intro hct; subst hct
    rw [getField_spread, urUpd_lookup_ct_none, Option.none_or]
  · intro hfn; subst hfn
    rw [getField_spread, urUpd_lookup_fn_none, Option.none_or]
  · intro k hk
    simp only [List.mem_cons, List.not_mem_nil, or_false, not_or] at hk
    obtain ⟨h1, h2, h3, h4, h5, h6, h7⟩ := hk
    rw [getField_spread,
      urUpd_lookup_other _ _ _ _ _ _ _ k h1 h2 h3 h4 h5 h6 h7,
      Option.none_or]
  · intro j hj
    simp [List.getD_eq_getElem?_getD, List.getElem?_set_ne (Ne.symm hj)]
  · intro k hk
    exact lookup_set_ne st "registrations" k _ hk

/-- Witness for C4: updating the single stored registration (id 7) with
only a new status keeps its stored `payment_status`. -/
theorem updateRegistration_frame_witness :
    getField (JVal.obj (objMerge
        (asObj ([JVal.obj [("id", JVal.num 7),
            ("payment_status", JVal.str "Unpaid")]].getD 0 JVal.null))
        (updateRegistrationUpdates "Approved" none none none none none none)))
      "payment_status" = some (JVal.str "Unpaid") :=
  (updateRegistration_frame
    [("registrations", Cell.good (JVal.arr
      [JVal.obj [("id", JVal.num 7), ("payment_status", JVal.str "Unpaid")]]))]
    7 "Approved" none none none none none none
    [JVal.obj [("id", JVal.num 7), ("payment_status", JVal.str "Unpaid")]]
    0
    (updateRegistrationUpdates "Approved" none none none none none none)
    (JVal.obj (objMerge
      (asObj ([JVal.obj [("id", JVal.num 7),
          ("payment_status", JVal.str "Unpaid")]].getD 0 JVal.null))
      (updateRegistrationUpdates "Approved" none none none none none none)))
    rfl rfl rfl rfl).2.1 rfl

/-- C9: the optional parameters of `updateRegistration` are not treated
uniformly: `payment_status` and `payment_detail` given as the empty
string are skipped (stored value kept), whereas `cost` given as `0` and
`class_type` or `facility_notes` given as the empty string are applied
and overwrite the stored value; the required `status` is always
written. -/
theorem updateRegistration_nonuniform
    (st : Store) (id : Int) (status : String) (ps : Option String)
    (cost : Option Int) (pd pp ct fn : Option String)
    (regs : List JVal) (idx : Nat) (u : List (String × JVal)) (merged : JVal)
    (hu : u = updateRegistrationUpdates status ps cost pd pp ct fn)
    (h : getMockData st "registrations" (.arr []) = .arr regs)
    (hidx : regs.findIdx? (fun r => strictEqNum (getField r "id") id)
        = some idx)
    (hm : merged = .obj (objMerge (asObj (regs.getD idx .null)) u)) :
    getMockData (updateRegistrationFallback st id u).2 "registrations"
        (.arr [])
      = .arr (regs.set idx merged)
    ∧ (ps = some "" → getField merged "payment_status"
        = getField (regs.getD idx .null) "payment_status")
    ∧ (pd = some "" → getField merged "payment_detail"
        = getField (regs.getD idx .null) "payment_detail")
    ∧ (cost = some 0 → getField merged "cost" = some (.num 0))
    ∧ (ct = some "" → getField merged "class_type" = some (.str ""))
    ∧ (fn = some "" → getField merged "facility_notes" = some (.str ""))
    ∧ getField merged "status" = some (.str status) := by
  subst hu
  subst hm
  refine ⟨?_, ?_, ?_, ?_, ?_, ?_, ?_⟩
  · simp only [updateRegistrationFallback, updateByIdFallback, h, asList,
      hidx]
    rw [getMockData_set_self]
  · intro hps; subst hps
    rw [getField_spread,
      urUpd_lookup_ps_skip _ _ _ _ _ _ _ (Or.inr rfl), Option.none_or]
  · intro hpd; subst hpd
    rw [getField_spread,
      urUpd_lookup_pd_skip _ _ _ _ _ _ _ (Or.inr rfl), Option.none_or]
  · intro hc; subst hc
    rw [getField_spread, urUpd_lookup_cost_some, Option.or_some]
  · intro hct; subst hct
    rw [getField_spread, urUpd_lookup_ct_some, Option.or_some]
  · intro hfn; subst hfn
    rw [getField_spread, urUpd_lookup_fn_some, Option.or_some]
  · rw [getField_spread, urUpd_lookup_status, Option.or_some]

/-- Witness for C9: an update with empty-string `payment_status`, zero
cost and empty-string `class_type` on the stored registration with id 7:
the zero cost lands, the empty `class_type` lands, the `status` lands. -/
theorem updateRegistration_nonuniform_witness :
    getField (JVal.obj (objMerge
        (asObj ([JVal.obj [("id", JVal.num 7), ("cost", JVal.num 250)]].getD
          0 JVal.null))
        (updateRegistrationUpdates "Done" (some "") (some 0) none none
          (some "") none)))
      "cost" = some (JVal.num 0) :=
  (updateRegistration_nonuniform
    [("registrations", Cell.good (JVal.arr
      [JVal.obj [("id", JVal.num 7), ("cost", JVal.num 250)]]))]
    7 "Done" (some "") (some 0) none none (some "") none
    [JVal.obj [("id", JVal.num 7), ("cost", JVal.num 250)]]
    0
    (updateRegistrationUpdates "Done" (some "") (some 0) none none
      (some "") none)
    (JVal.obj (objMerge
      (asObj ([JVal.obj [("id", JVal.num 7), ("cost", JVal.num 250)]].getD
        0 JVal.null))
      (updateRegistrationUpdates "Done" (some "") (some 0) none none
        (some "") none)))
    rfl rfl rfl rfl).2.2.2.1 rfl

/-- C6: deleting an identity absent from the stored collection is a no-op
for `deleteDoctor`, `deleteUser` and `deleteRoom`: each call returns
success, the collection read back afterwards equals the collection read
before the call, and every other storage key is unchanged. -/
theorem delete_missing_id_noop (st : Store) (id : Int)
    (docs users rooms : List JVal)
    (hd : getMockData st "doctors" (.arr MOCK_DOCTORS) = .arr docs)
    (hnd : ∀ d ∈ docs, strictEqNum (getField d "id") id = false)
    (hus : getMockData st "users" (.arr []) = .arr users)
    (hnu : ∀ x ∈ users, strictEqNum (getField x "id") id = false)
    (hr : getMockData st "rooms" (.arr []) = .arr rooms)
    (hnr : ∀ x ∈ rooms, strictEqNum (getField x "id") id = false) :
    ((deleteDoctorFallback st id).1 = true
      ∧ getMockData (deleteDoctorFallback st id).2 "doctors"
          (.arr MOCK_DOCTORS) = .arr docs
      ∧ ∀ k, k ≠ "doctors" →
          ((deleteDoctorFallback st id).2).lookup k = st.lookup k)
    ∧ ((deleteUserFallback st id).1 = true
      ∧ getMockData (deleteUserFallback st id).2 "users" (.arr [])
          = .arr users
      ∧ ∀ k, k ≠ "users" →
          ((deleteUserFallback st id).2).lookup k = st.lookup k)
    ∧ ((deleteRoomFallback st id).1 = true
      ∧ getMockData (deleteRoomFallback st id).2 "rooms" (.arr [])
          = .arr rooms
      ∧ ∀ k, k ≠ "rooms" →
          ((deleteRoomFallback st id).2).lookup k = st.lookup k) := by
  have fd : docs.filter (fun r => !(strictEqNum (getField r "id") id))
      = docs :=
    List.filter_eq_self.mpr (fun a ha => by rw [hnd a ha]; rfl)
  have fu : users.filter (fun r => !(strictEqNum (getField r "id") id))
      = users :=
    List.filter_eq_self.mpr (fun a ha => by rw [hnu a ha]; rfl)
  have fr : rooms.filter (fun r => !(strictEqNum (getField r "id") id))
      = rooms :=
    List.filter_eq_self.mpr (fun a ha => by rw [hnr a ha]; rfl)
  have ed : deleteDoctorFallback st id
      = (true, setMockData st "doctors" (.arr docs)) := by
    simp only [deleteDoctorFallback, deleteByIdFallback, hd, asList, fd]
  have eu : deleteUserFallback st id
      = (true, setMockData st "users" (.arr users)) := by
    simp only [deleteUserFallback, deleteByIdFallback, hus, asList, fu]
  have er : deleteRoomFallback st id
      = (true, setMockData st "rooms" (.arr rooms)) := by
    simp only [deleteRoomFallback, deleteByIdFallback, hr, asList, fr]
  refine ⟨⟨?_, ?_, ?_⟩, ⟨?_, ?_, ?_⟩, ⟨?_, ?_, ?_⟩⟩
  · rw [ed]
  · rw [ed]; exact getMockData_set_self st "doctors" (.arr docs) _
  · intro k hk; rw [ed]; exact lookup_set_ne st "doctors" k _ hk
  · rw [eu]
  · rw [eu]; exact getMockData_set_self st "users" (.arr users) _
  · intro k hk; rw [eu]; exact lookup_set_ne st "users" k _ hk
  · rw [er]
  · rw [er]; exact getMockData_set_self st "rooms" (.arr rooms) _
  · intro k hk; rw [er]; exact lookup_set_ne st "rooms" k _ hk

/-- Witness for C6 on the empty store (doctors read back as the mock
defaults, ids 1 and 2) and the absent id 99: the collection reads back
unchanged. -/
theorem delete_missing_id_noop_witness :
    getMockData (deleteDoctorFallback [] 99).2 "doctors" (.arr MOCK_DOCTORS)
      = .arr MOCK_DOCTORS :=
  ((delete_missing_id_noop [] 99 MOCK_DOCTORS [] [] rfl (by decide) rfl
    (by decide) rfl (by decide)).1).2.1

/-- C10: for the fallback update operations (`updateMessage`,
`updateDoctor`, `updateUser`) and an identity absent from the stored
collection, the call returns `true` and the store is left completely
unchanged — a missing identity is reported as success, not as an
error. -/
theorem update_missing_id_noop (st : Store) (id : Int)
    (data : List (String × JVal)) (msgs docs users : List JVal)
    (hm : getMockData st "messages" (.arr []) = .arr msgs)
    (hnm : ∀ x ∈ msgs, strictEqNum (getField x "id") id = false)
    (hd : getMockData st "doctors" (.arr MOCK_DOCTORS) = .arr docs)
    (hnd : ∀ x ∈ docs, strictEqNum (getField x "id") id = false)
    (hu : getMockData st "users" (.arr []) = .arr users)
    (hnu : ∀ x ∈ users, strictEqNum (getField x "id") id = false) :
    updateMessageFallback st id data = (true, st)
    ∧ updateDoctorFallback st id data = (true, st)
    ∧ updateUserFallback st id data = (true, st) := by
  have fm : msgs.findIdx? (fun r => strictEqNum (getField r "id") id)
      = none := List.findIdx?_eq_none_iff.mpr hnm
  have fd : docs.findIdx? (fun r => strictEqNum (getField r "id") id)
      = none := List.findIdx?_eq_none_iff.mpr hnd
  have fu : users.findIdx? (fun r => strictEqNum (getField r "id") id)
      = none := List.findIdx?_eq_none_iff.mpr hnu
  refine ⟨?_, ?_, ?_⟩
  · simp only [updateMessageFallback, updateByIdFallback, hm, asList, fm]
  · simp only [updateDoctorFallback, updateByIdFallback, hd, asList, fd]
  · simp only [updateUserFallback, updateByIdFallback, hu, asList, fu]

/-- Witness for C10 on the empty store and the absent id 99: marking a
message read is a successful no-op. -/
theorem update_missing_id_noop_witness :
    updateMessageFallback [] 99 [("is_read", JVal.bool true)] = (true, []) :=
  (update_missing_id_noop [] 99 [("is_read", JVal.bool true)] [] MOCK_DOCTORS
    [] rfl (by decide) rfl (by decide) rfl (by decide)).1

/-- C8: each `registerPatient` call writes exactly one of the two backing
stores, chosen by the wrapper's success/failure outcome: when the remote
insert is taken (enabled, no error) the remote table gains the row and
local storage is untouched; otherwise the remote table is untouched and
only the local `registrations` key is written.  No call writes both, and
a disabled flag always selects the local store. -/
theorem registerPatient_single_store (enabled : Bool)
    (out : RemoteWriteOutcome) (w : World) (data : List (String × JVal))
    (q : ℚ) (now : String) (fallbackId : Int) :
    (remoteInsertTaken enabled out = true →
      (registerPatientRun enabled out w data q now fallbackId).remote
          = w.remote ++ [.obj (registerNewData data (randomSuffix q) now)]
        ∧ (registerPatientRun enabled out w data q now fallbackId).store
          = w.store
        ∧ (registerPatientRun enabled out w data q now fallbackId).remote
          ≠ w.remote)
    ∧ (remoteInsertTaken enabled out = false →
      (registerPatientRun enabled out w data q now fallbackId).remote
          = w.remote
        ∧ (registerPatientRun enabled out w data q now fallbackId).store
          = setMockData w.store "registrations"
              (.arr (asList (getMockData w.store "registrations" (.arr []))
                ++ [.obj (objMerge [("id", .num fallbackId)]
                    (registerNewData data (randomSuffix q) now))]))
        ∧ (registerPatientRun enabled out w data q now fallbackId).store
          ≠ w.store)
    ∧ ¬((registerPatientRun enabled out w data q now fallbackId).remote
          ≠ w.remote
        ∧ (registerPatientRun enabled out w data q now fallbackId).store
          ≠ w.store)
    ∧ (enabled = false → remoteInsertTaken enabled out = false) := by
  have hrun_t : remoteInsertTaken enabled out = true →
      registerPatientRun enabled out w data q now fallbackId
        = { remote := w.remote
              ++ [.obj (registerNewData data (randomSuffix q) now)],
            store := w.store } := by
    intro ht
    simp [registerPatientRun, ht]
  have hrun_f : remoteInsertTaken enabled out = false →
      registerPatientRun enabled out w data q now fallbackId
        = { remote := w.remote,
            store := setMockData w.store "registrations"
              (.arr (asList (getMockData w.store "registrations" (.arr []))
                ++ [.obj (objMerge [("id", .num fallbackId)]
                    (registerNewData data (randomSuffix q) now))])) } := by
    intro hf
    simp [registerPatientRun, hf]
  refine ⟨fun ht => ?_, fun hf => ?_, ?_, fun hdis => ?_⟩
  · rw [hrun_t ht]
    refine ⟨rfl, rfl, fun hx => ?_⟩
    have hlen := congrArg List.length hx
    simp at hlen
  · rw [hrun_f hf]
    refine ⟨rfl, rfl, fun hx => ?_⟩
    have hlen := congrArg List.length hx
    simp [setMockData] at hlen
  · cases ht : remoteInsertTaken enabled out
    · rintro ⟨hr, -⟩
      exact hr (by rw [hrun_f ht])
    · rintro ⟨-, hs⟩
      exact hs (by rw [hrun_t ht])
  · subst hdis
    rfl

/-- Witness for C8 with the remote path disabled: the remote table is
untouched and the local store receives the registration. -/
theorem registerPatient_single_store_witness :
    (registerPatientRun false RemoteWriteOutcome.ok ⟨[], []⟩ [] 0 "t"
      1).remote = []
    ∧ (registerPatientRun false RemoteWriteOutcome.ok ⟨[], []⟩ [] 0 "t"
      1).store ≠ [] :=
  ⟨((registerPatient_single_store false RemoteWriteOutcome.ok ⟨[], []⟩ []
      0 "t" 1).2.1 rfl).1,
   ((registerPatient_single_store false RemoteWriteOutcome.ok ⟨[], []⟩ []
      0 "t" 1).2.1 rfl).2.2⟩

end RsudDolopo

